import Mathlib

/-!
Verification of the propagation engine of `transactional_sqlalchemy`
(`transactional_sqlalchemy/wrapper/async_wrapper.py`), of the CRUD helper
`BaseCRUDRepository.find_all_by_id` (`transactional_sqlalchemy/repository/base.py`)
and of `Pageable` (`transactional_sqlalchemy/domains.py`).

The engine is embedded shallowly: the external SQLAlchemy session is a record of
the attributes the engine reads (`autoflush`, `is_active`, the `new`/`dirty`/`deleted`
pending sets and the identity map), object identities are natural numbers, and the
wrapped user function is an abstract behaviour: a state transformer on the session
together with an optional raised exception kind.  Every session primitive the engine
invokes (commit / flush / rollback / close / savepoint operations) is recorded in an
event trace so that frame claims ("never closes", "only the savepoint is rolled
back") can be stated as facts about the trace.

The helper leaves called by the wrapper (`wrapper/common.py`,
`utils/transaction_util.py`, `config.py`) are not part of the source tree; they are
modelled from the specification's contracts and marked as such in their doc
comments.
-/

/-- Exception kinds are abstract tags; classification lists hold kinds and
matching is membership. -/
abbrev ExcKind := Nat

/-- The slice of a SQLAlchemy (async) session that the propagation engine reads:
identity `id`, the `autoflush` toggle, the `is_active` flag, the `new` / `dirty` /
`deleted` pending partitions and the identity-map membership (object identities). -/
structure Session where
  id : Nat
  autoflush : Bool
  is_active : Bool
  new : List Nat
  dirty : List Nat
  deleted : List Nat
  identity : List Nat
deriving Repr, DecidableEq

/-- The session primitives the engine may invoke, recorded in the event trace. -/
inductive SessOp where
  | commit
  | flush
  | rollback
  | close
  | begin_nested
  | savepoint_commit
  | savepoint_rollback
deriving Repr, DecidableEq

/-- Model of `session.commit()`: pending changes are written and the pending sets drained. -/
def Session.commitOp (s : Session) : Session :=
  { s with new := [], dirty := [], deleted := [] }

/-- Model of `session.flush()`: pending changes are written and the pending sets drained
(the transaction stays open). -/
def Session.flushOp (s : Session) : Session :=
  { s with new := [], dirty := [], deleted := [] }

/-- Model of `session.rollback()`: pending changes are discarded. -/
def Session.rollbackOp (s : Session) : Session :=
  { s with new := [], dirty := [], deleted := [] }

/-- Model of `session.close()`: the session is released. -/
def Session.closeOp (s : Session) : Session :=
  { s with is_active := false }

/-- Model of `savepoint.rollback()`: pending changes since the savepoint are discarded. -/
def Session.savepointRollbackOp (s : Session) : Session :=
  { s with new := [], dirty := [], deleted := [] }

/-- Behaviour of a wrapped user function: how it mutates the session it is handed
(`effect`), its return value when it returns normally (`retVal`), and the kind of
exception it raises, if any (`raises`). -/
structure FuncBeh where
  effect : Session → Session
  retVal : Nat
  raises : Option ExcKind

/-- Running the wrapped function mutates the session object in place, so the
session's identity is necessarily preserved across the call. -/
def FuncBeh.call (f : FuncBeh) (s : Session) : Session :=
  { f.effect s with id := s.id }

/-- Observable outcome of a decorated call: a normal return carrying the wrapped
function's value (or `none`, Python's `None`, when the engine swallowed an
exception), a propagated exception of the original kind, or an engine-level
configuration error (`ValueError`). -/
inductive Outcome where
  | ok : Option Nat → Outcome
  | raised : ExcKind → Outcome
  | configError : Outcome
deriving Repr, DecidableEq

/-- Result of one decorated call: the outcome, the final state of the session the
call used, the transaction-context stack after the call (session ids, top first)
and the trace of session primitives performed, tagged with the session id they
were performed on. -/
structure TxResult where
  outcome : Outcome
  sess : Session
  ctx : List Nat
  ops : List (Nat × SessOp)
deriving Repr

/-- Modelled from the spec: `add_session_to_context`
(`utils/transaction_util.py`, not in the source tree) pushes a session onto the
task-local transaction-context stack (§4.2). -/
def add_session_to_context (sid : Nat) (ctx : List Nat) : List Nat :=
  sid :: ctx

/-- Modelled from the spec: `remove_session_from_context`
(`utils/transaction_util.py`, not in the source tree) pops the top entry of the
transaction-context stack (§4.2, LIFO discipline). -/
def remove_session_from_context (ctx : List Nat) : List Nat :=
  ctx.tail

/-- Modelled from the spec: `__check_is_commit` (`wrapper/common.py`, not in the
source tree) decides whether rollback is suppressed for a raised exception
(§4.4): with no lists configured every exception triggers rollback; a
`no_rollback_for` match suppresses rollback and wins over `rollback_for`; a
non-empty `rollback_for` restricts rollback to matching exceptions. Returns
`true` when the engine must NOT roll back. -/
def check_is_commit (e : ExcKind) (rollback_for no_rollback_for : List ExcKind) : Bool :=
  if no_rollback_for.contains e then true
  else if !rollback_for.isEmpty then !(rollback_for.contains e)
  else false

/-- Modelled from the spec: `has_pending_changes` (`wrapper/common.py`, not in
the source tree) is true iff the session's new, dirty or deleted set is
non-empty (§4.5). -/
def has_pending_changes (s : Session) : Bool :=
  !s.new.isEmpty || !s.dirty.isEmpty || !s.deleted.isEmpty

/-- Modelled from the spec: `a_get_current_session_objects` (`wrapper/common.py`,
not in the source tree) captures the identity-map membership of the session or
savepoint scope (§4.6 `snapshot`). -/
def a_get_current_session_objects (s : Session) : List Nat :=
  s.identity

/-- Modelled from the spec: `reset_savepoint_objects` (`wrapper/common.py`, not
in the source tree) expunges from the identity map every object added since the
snapshot, i.e. keeps exactly the snapshot members (§4.6 `reset`). -/
def reset_savepoint_objects (s : Session) (snapshot : List Nat) : Session :=
  { s with identity := s.identity.filter (fun o => snapshot.contains o) }

/-- The session state the wrapped function sees on entry
(`wrapper/async_wrapper.py`, lines 41-43): autoflush is disabled first when the
call is read-only. -/
def entrySession (read_only : Bool) (s : Session) : Session :=
  if read_only then { s with autoflush := false } else s

/-- Finalisation of `_a_do_fn_with_tx` (`wrapper/async_wrapper.py`, the `finally`
block): restore the original `autoflush`, close the session when this call owns
it, and pop this call's context entry. -/
def a_tx_finalize (origin_autoflush is_session_owner : Bool)
    (s : Session) (ctx1 : List Nat) (ops : List (Nat × SessOp)) (out : Outcome) :
    TxResult :=
  let s1 := { s with autoflush := origin_autoflush }
  if is_session_owner then
    { outcome := out, sess := Session.closeOp s1,
      ctx := remove_session_from_context ctx1,
      ops := ops ++ [(s.id, SessOp.close)] }
  else
    { outcome := out, sess := s1,
      ctx := remove_session_from_context ctx1, ops := ops }

/-- Embedding of `_a_do_fn_with_tx` (`wrapper/async_wrapper.py`, lines 26-77):
push the session onto the context, snapshot the identity map, disable autoflush
for read-only calls, run the wrapped function, then: on normal return commit
(owner, not read-only, active session) or flush (borrower, active session,
auto-flush on, pending changes); on an exception whose rollback is suppressed,
swallow it and return `None`; on any other exception evict the objects added
since entry, roll back the active session and re-raise. The `finally` block
(`a_tx_finalize`) always restores autoflush, closes an owned session and pops
the context entry. -/
def a_do_fn_with_tx (func : FuncBeh) (sess : Session) (ctx : List Nat)
    (read_only is_session_owner auto_flush : Bool)
    (rollback_for no_rollback_for : List ExcKind) : TxResult :=
  let ctx1 := add_session_to_context sess.id ctx
  let object_snapshots := a_get_current_session_objects sess
  let origin_autoflush := sess.autoflush
  let s2 := func.call (entrySession read_only sess)
  match func.raises with
  | none =>
    if is_session_owner && !read_only && s2.is_active then
      a_tx_finalize origin_autoflush is_session_owner (Session.commitOp s2) ctx1
        [(sess.id, SessOp.commit)] (Outcome.ok (some func.retVal))
    else if !is_session_owner && s2.is_active && auto_flush
        && (!s2.dirty.isEmpty || !s2.new.isEmpty || !s2.deleted.isEmpty) then
      a_tx_finalize origin_autoflush is_session_owner (Session.flushOp s2) ctx1
        [(sess.id, SessOp.flush)] (Outcome.ok (some func.retVal))
    else
      a_tx_finalize origin_autoflush is_session_owner s2 ctx1
        [] (Outcome.ok (some func.retVal))
  | some e =>
    if check_is_commit e rollback_for no_rollback_for then
      a_tx_finalize origin_autoflush is_session_owner s2 ctx1
        [] (Outcome.ok none)
    else
      let s3 := reset_savepoint_objects s2 object_snapshots
      if s3.is_active then
        a_tx_finalize origin_autoflush is_session_owner (Session.rollbackOp s3) ctx1
          [(sess.id, SessOp.rollback)] (Outcome.raised e)
      else
        a_tx_finalize origin_autoflush is_session_owner s3 ctx1
          [] (Outcome.raised e)

/-- Embedding of the NESTED branch of `__async_transaction_wrapper`
(`wrapper/async_wrapper.py`, lines 148-175): open a savepoint on the ambient
session, snapshot the identity map, run the wrapped function with the ambient
session injected; on normal return flush when not read-only and changes are
pending; on an exception classified as a rollback trigger evict the objects
added since the snapshot and roll back the (still active) savepoint, and always
re-raise; the `finally` block commits (releases) a still-active savepoint unless
the call is read-only, in which case it rolls the savepoint back. The savepoint
activity flag is engine-local: only the engine's own savepoint operations change
it. -/
def a_nested_tx (func : FuncBeh) (cur : Session) (ctx : List Nat)
    (read_only : Bool) (rollback_for no_rollback_for : List ExcKind) : TxResult :=
  let object_snapshots := a_get_current_session_objects cur
  let ops0 := [(cur.id, SessOp.begin_nested)]
  let s2 := func.call cur
  match func.raises with
  | none =>
    let doFlush := !read_only && has_pending_changes s2
    let s3 := if doFlush then Session.flushOp s2 else s2
    let ops1 := if doFlush then ops0 ++ [(cur.id, SessOp.flush)] else ops0
    if read_only then
      { outcome := Outcome.ok (some func.retVal), sess := Session.savepointRollbackOp s3,
        ctx := ctx, ops := ops1 ++ [(cur.id, SessOp.savepoint_rollback)] }
    else
      { outcome := Outcome.ok (some func.retVal), sess := s3,
        ctx := ctx, ops := ops1 ++ [(cur.id, SessOp.savepoint_commit)] }
  | some e =>
    if !(check_is_commit e rollback_for no_rollback_for) then
      let s3 := reset_savepoint_objects s2 object_snapshots
      { outcome := Outcome.raised e, sess := Session.savepointRollbackOp s3,
        ctx := ctx, ops := ops0 ++ [(cur.id, SessOp.savepoint_rollback)] }
    else
      if read_only then
        { outcome := Outcome.raised e, sess := Session.savepointRollbackOp s2,
          ctx := ctx, ops := ops0 ++ [(cur.id, SessOp.savepoint_rollback)] }
      else
        { outcome := Outcome.raised e, sess := s2,
          ctx := ctx, ops := ops0 ++ [(cur.id, SessOp.savepoint_commit)] }

/-- The three propagation modes (`enums.py`). -/
inductive Propagation where
  | REQUIRES
  | REQUIRES_NEW
  | NESTED
deriving Repr, DecidableEq

/-- Embedding of `__async_transaction_wrapper` / `async_wrapper`
(`wrapper/async_wrapper.py`, lines 80-177).  `ctx` is the transaction-context
stack (session ids, top first); `ambient` is the session object referenced by
the top entry, meaningful when `ctx` is non-empty (the `get_session_from_context`
peek, whose `ValueError` on an empty stack is the `ctx.isEmpty` test here);
`fresh` is the session the session provider hands out when asked
(`get_new_async_session`, forced for REQUIRES_NEW).  REQUIRES joins the ambient
session as a borrower or creates and owns a new one; REQUIRES_NEW always owns a
forced fresh session; NESTED demands an ambient session and otherwise raises a
configuration `ValueError` before any savepoint is opened and without invoking
the wrapped function. -/
def async_transaction_wrapper
    (propagation : Propagation) (read_only : Bool)
    (rollback_for no_rollback_for : List ExcKind)
    (func : FuncBeh) (ctx : List Nat) (ambient fresh : Session) : TxResult :=
  match propagation with
  | Propagation.REQUIRES =>
    if ctx.isEmpty then
      a_do_fn_with_tx func fresh ctx read_only true false rollback_for no_rollback_for
    else
      a_do_fn_with_tx func ambient ctx read_only false true rollback_for no_rollback_for
  | Propagation.REQUIRES_NEW =>
    a_do_fn_with_tx func fresh ctx read_only true false rollback_for no_rollback_for
  | Propagation.NESTED =>
    if ctx.isEmpty then
      { outcome := Outcome.configError, sess := ambient, ctx := ctx, ops := [] }
    else
      a_nested_tx func ambient ctx read_only rollback_for no_rollback_for

/-- Abstract executor standing for `session.execute` in
`BaseCRUDRepository.find_all_by_id`: runs a statement given its list of
conditions and yields the result rows. -/
structure QueryExec where
  run : List Nat → List Nat

/-- Embedding of the asynchronous `find_all_by_id`
(`repository/base.py`, lines 491-525): an empty id list returns `[]` at once;
otherwise the per-id primary-key conditions (`_build_pk_condition`) are built,
the extra `where` conditions appended, and the statement executed once on the
session.  The second component counts `session.execute` calls. -/
def find_all_by_id_async (build_pk : Nat → Nat) (ids whereConds : List Nat)
    (execute : QueryExec) : List Nat × Nat :=
  if ids.isEmpty then ([], 0)
  else
    let conditions := ids.map build_pk ++ whereConds
    (execute.run conditions, 1)

/-- Embedding of the synchronous `find_all_by_id`
(`repository/base.py`, lines 685-706), textually the same logic as the
asynchronous variant. -/
def find_all_by_id_sync (build_pk : Nat → Nat) (ids whereConds : List Nat)
    (execute : QueryExec) : List Nat × Nat :=
  if ids.isEmpty then ([], 0)
  else
    let conditions := ids.map build_pk ++ whereConds
    (execute.run conditions, 1)

/-- Embedding of `Pageable` (`domains.py`): page and size are Python integers. -/
structure Pageable where
  page : Int := 1
  size : Int := 10
  total_items : Int := 0
deriving Repr, DecidableEq

/-- Embedding of `Pageable.validate` (`domains.py`, lines 70-74): raises `ValueError` for a
page below 1, then for a size below 1. -/
def Pageable.validate (p : Pageable) : Except String Unit :=
  if p.page < 1 then Except.error "Page number must be greater than or equal to 1."
  else if p.size < 1 then Except.error "Page size must be greater than or equal to 1."
  else Except.ok ()

/-- Embedding of `Pageable.__post_init__` (`domains.py`, lines 79-86): `total_pages` is
`math.ceil(total_items / size)` when both are positive and `0` otherwise. -/
def Pageable.total_pages (p : Pageable) : Int :=
  if p.total_items > 0 && p.size > 0 then
    Int.ceil ((p.total_items : ℚ) / (p.size : ℚ))
  else 0

/-- Embedding of `Pageable.limit` (`domains.py`, lines 88-90). -/
def Pageable.limit (p : Pageable) : Int := p.size

/-- Embedding of `Pageable.offset` (`domains.py`, lines 92-94). -/
def Pageable.offset (p : Pageable) : Int := (p.page - 1) * p.size

/-! ## Concrete fixtures used by counterexamples and witnesses -/

/-- An ambient session: id 1, active, one object (10) already tracked. -/
def sessA : Session :=
  { id := 1, autoflush := true, is_active := true,
    new := [], dirty := [], deleted := [], identity := [10] }

/-- A fresh session from the provider: id 7, active, empty. -/
def sessB : Session :=
  { id := 7, autoflush := true, is_active := true,
    new := [], dirty := [], deleted := [], identity := [] }

/-- A wrapped function that raises an exception of kind 5 without touching the
session. -/
def exBeh : FuncBeh := { effect := id, retVal := 0, raises := some 5 }

/-- A wrapped function that adds an object (42) to the session and returns 3. -/
def addBeh : FuncBeh :=
  { effect := fun s => { s with new := [42], identity := s.identity ++ [42] },
    retVal := 3, raises := none }

/-! ## Helper lemmas -/

theorem a_tx_finalize_outcome (oa own : Bool) (s : Session) (c : List Nat)
    (ops : List (Nat × SessOp)) (out : Outcome) :
    (a_tx_finalize oa own s c ops out).outcome = out := by
  unfold a_tx_finalize
  split <;> rfl

theorem a_tx_finalize_ctx (oa own : Bool) (s : Session) (c : List Nat)
    (ops : List (Nat × SessOp)) (out : Outcome) :
    (a_tx_finalize oa own s c ops out).ctx = remove_session_from_context c := by
  unfold a_tx_finalize
  split <;> rfl

theorem a_tx_finalize_sess_id (oa own : Bool) (s : Session) (c : List Nat)
    (ops : List (Nat × SessOp)) (out : Outcome) :
    (a_tx_finalize oa own s c ops out).sess.id = s.id := by
  unfold a_tx_finalize
  split <;> rfl

theorem a_tx_finalize_autoflush (oa own : Bool) (s : Session) (c : List Nat)
    (ops : List (Nat × SessOp)) (out : Outcome) :
    (a_tx_finalize oa own s c ops out).sess.autoflush = oa := by
  unfold a_tx_finalize
  split <;> rfl

theorem a_tx_finalize_ops (oa own : Bool) (s : Session) (c : List Nat)
    (ops : List (Nat × SessOp)) (out : Outcome) :
    (a_tx_finalize oa own s c ops out).ops
      = if own then ops ++ [(s.id, SessOp.close)] else ops := by
  unfold a_tx_finalize
  split <;> simp_all

@[simp] theorem FuncBeh.call_id (f : FuncBeh) (s : Session) : (f.call s).id = s.id := rfl

@[simp] theorem entrySession_id (ro : Bool) (s : Session) : (entrySession ro s).id = s.id := by
  unfold entrySession
  split <;> rfl

theorem reset_savepoint_objects_is_active (s : Session) (snap : List Nat) :
    (reset_savepoint_objects s snap).is_active = s.is_active := rfl

@[simp] theorem Session.commitOp_id (s : Session) : s.commitOp.id = s.id := rfl

@[simp] theorem Session.flushOp_id (s : Session) : s.flushOp.id = s.id := rfl

@[simp] theorem Session.rollbackOp_id (s : Session) : s.rollbackOp.id = s.id := rfl

@[simp] theorem Session.closeOp_id (s : Session) : s.closeOp.id = s.id := rfl

@[simp] theorem Session.savepointRollbackOp_id (s : Session) :
    s.savepointRollbackOp.id = s.id := rfl

@[simp] theorem reset_savepoint_objects_id (s : Session) (snap : List Nat) :
    (reset_savepoint_objects s snap).id = s.id := rfl

theorem ceil_ratCast_div (a b : ℤ) (hb : 0 < b) :
    ⌈(a : ℚ) / (b : ℚ)⌉ = (a + b - 1) / b := by
  have hb0 : (0 : ℚ) < (b : ℚ) := by exact_mod_cast hb
  rw [Int.ceil_eq_iff]
  have hd := Int.ediv_add_emod (a + b - 1) b
  have hr0 : 0 ≤ (a + b - 1) % b := Int.emod_nonneg _ (by omega)
  have hrb : (a + b - 1) % b < b := Int.emod_lt_of_pos _ hb
  constructor
  · rw [lt_div_iff₀ hb0]
    have h1 : ((a + b - 1) / b - 1) * b < a := by nlinarith [hd, hr0, hrb]
    calc (↑((a + b - 1) / b) - 1) * (b : ℚ)
        = ((((a + b - 1) / b - 1) * b : ℤ) : ℚ) := by push_cast; ring
      _ < ((a : ℤ) : ℚ) := by exact_mod_cast h1
  · rw [div_le_iff₀ hb0]
    have h2 : a ≤ (a + b - 1) / b * b := by nlinarith [hd, hr0, hrb]
    calc ((a : ℤ) : ℚ) ≤ (((a + b - 1) / b * b : ℤ) : ℚ) := by exact_mod_cast h2
      _ = ↑((a + b - 1) / b) * (b : ℚ) := by push_cast; ring

/-! ## Claims -/

/-- C1 counterexample: a REQUIRES owner call whose wrapped function raises an
exception of kind 5 that the configured `no_rollback_for` list matches does NOT
propagate the exception: the engine swallows it and the call returns `None`.
This refutes the claim that the exception always reaches the caller regardless
of the rollback classification decision. -/
theorem C1_counterexample :
    exBeh.raises = some 5 ∧
    (async_transaction_wrapper Propagation.REQUIRES false [] [5] exBeh [] sessA sessB).outcome
      = Outcome.ok none :=
  ⟨rfl, rfl⟩

/-- C1 (amended): when the wrapped function raises an exception, a NESTED call
always re-raises it with its original kind; a REQUIRES or REQUIRES_NEW call
re-raises it exactly when the classification makes it a rollback trigger, and
when the classification suppresses rollback the engine also suppresses the
exception and the call returns `None`. -/
theorem C1_exception_propagation (p : Propagation) (read_only : Bool)
    (rb nrb : List ExcKind) (func : FuncBeh) (ctx : List Nat) (ambient fresh : Session)
    (e : ExcKind) (hraise : func.raises = some e)
    (hnest : p = Propagation.NESTED → ctx ≠ []) :
    (check_is_commit e rb nrb = false →
      (async_transaction_wrapper p read_only rb nrb func ctx ambient fresh).outcome
        = Outcome.raised e) ∧
    (p ≠ Propagation.NESTED → check_is_commit e rb nrb = true →
      (async_transaction_wrapper p read_only rb nrb func ctx ambient fresh).outcome
        = Outcome.ok none) ∧
    (p = Propagation.NESTED →
      (async_transaction_wrapper p read_only rb nrb func ctx ambient fresh).outcome
        = Outcome.raised e) := by
  have hdo : ∀ (sess : Session) (own af : Bool),
      (check_is_commit e rb nrb = false →
        (a_do_fn_with_tx func sess ctx read_only own af rb nrb).outcome = Outcome.raised e) ∧
      (check_is_commit e rb nrb = true →
        (a_do_fn_with_tx func sess ctx read_only own af rb nrb).outcome = Outcome.ok none) := by
    intro sess own af
    unfold a_do_fn_with_tx
    rw [hraise]
    constructor <;> intro hc <;> simp only [hc, if_true, if_false, Bool.false_eq_true,
      a_tx_finalize_outcome]
    split <;> simp [a_tx_finalize_outcome]
  have hnested : ctx ≠ [] → ∀ cur,
      (a_nested_tx func cur ctx read_only rb nrb).outcome = Outcome.raised e := by
    intro _ cur
    unfold a_nested_tx
    simp only [hraise]
    split
    · rfl
    · split <;> rfl
  refine ⟨?_, ?_, ?_⟩
  · intro hc
    cases p with
    | REQUIRES =>
      simp only [async_transaction_wrapper]
      split
      · exact (hdo fresh true false).1 hc
      · exact (hdo ambient false true).1 hc
    | REQUIRES_NEW =>
      exact (hdo fresh true false).1 hc
    | NESTED =>
      have hc' := hnest rfl
      simp only [async_transaction_wrapper]
      split
      · simp_all
      · exact hnested hc' ambient
  · intro hp hc
    cases p with
    | REQUIRES =>
      simp only [async_transaction_wrapper]
      split
      · exact (hdo fresh true false).2 hc
      · exact (hdo ambient false true).2 hc
    | REQUIRES_NEW =>
      exact (hdo fresh true false).2 hc
    | NESTED => exact absurd rfl hp
  · intro hp
    subst hp
    have hc' := hnest rfl
    simp only [async_transaction_wrapper]
    split
    · simp_all
    · exact hnested hc' ambient

/-- C1 witness: a NESTED call with an ambient session re-raises the wrapped
function's exception of kind 5. -/
theorem C1_witness :
    (async_transaction_wrapper Propagation.NESTED false [] [] exBeh [1] sessA sessB).outcome
      = Outcome.raised 5 :=
  (C1_exception_propagation Propagation.NESTED false [] [] exBeh [1] sessA sessB 5 rfl
    (fun _ => by decide)).2.2 rfl

/-- C2 counterexample: a read-only REQUIRES borrower call (ambient session on the
stack) whose wrapped function returns normally after adding an object DOES issue
a flush: the flush guard in `_a_do_fn_with_tx` never consults the read-only
flag. This refutes the claim that a read-only borrower call never issues this
flush. -/
theorem C2_counterexample :
    addBeh.raises = none ∧
    (async_transaction_wrapper Propagation.REQUIRES true [] [] addBeh [1] sessA sessB).ops
      = [(1, SessOp.flush)] :=
  ⟨rfl, rfl⟩

/-- C2 (amended): for a REQUIRES borrower call whose wrapped function returns
normally, a flush is issued if and only if the session is active after the call
and its new/dirty/deleted sets are non-empty; auto-flush is always enabled on
the borrower path, and the read-only flag does not take part in the decision. -/
theorem C2_borrower_flush (read_only : Bool) (rb nrb : List ExcKind) (func : FuncBeh)
    (ctx : List Nat) (ambient fresh : Session)
    (hctx : ctx ≠ []) (hnorm : func.raises = none) :
    ((async_transaction_wrapper Propagation.REQUIRES read_only rb nrb func ctx ambient fresh).ops.contains
        (ambient.id, SessOp.flush) = true
      ↔ ((func.call (entrySession read_only ambient)).is_active = true ∧
         has_pending_changes (func.call (entrySession read_only ambient)) = true)) := by
  have hne : ctx.isEmpty = false := by
    cases ctx with
    | nil => exact absurd rfl hctx
    | cons a t => rfl
  simp only [async_transaction_wrapper, hne, Bool.false_eq_true, if_false]
  unfold a_do_fn_with_tx
  simp only [hnorm]
  split
  · rename_i hcond
    simp at hcond
  · split
    · rename_i hcond
      simp only [Bool.not_false, Bool.true_and, Bool.and_true, Bool.and_eq_true,
        Bool.or_eq_true, Bool.not_eq_true'] at hcond
      simp only [a_tx_finalize_ops, Bool.false_eq_true, if_false]
      constructor
      · intro _
        refine ⟨by tauto, ?_⟩
        simp only [has_pending_changes, Bool.or_eq_true, Bool.not_eq_true']
        tauto
      · intro _
        simp
    · rename_i hcond
      simp only [a_tx_finalize_ops, Bool.false_eq_true, if_false]
      constructor
      · intro h
        simp at h
      · intro hrhs
        exfalso
        apply hcond
        simp only [has_pending_changes, Bool.or_eq_true, Bool.not_eq_true'] at hrhs
        simp only [Bool.not_false, Bool.true_and, Bool.and_true, Bool.and_eq_true,
          Bool.or_eq_true, Bool.not_eq_true']
        exact ⟨hrhs.1, by tauto⟩

/-- C2 witness: the amended flush rule at a concrete borrower call that adds an
object: the flush is observed. -/
theorem C2_witness :
    (async_transaction_wrapper Propagation.REQUIRES true [] [] addBeh [1] sessA sessB).ops.contains
      (1, SessOp.flush) = true :=
  (C2_borrower_flush true [] [] addBeh [1] sessA sessB (by decide) rfl).mpr (by decide)

/-- C3 counterexample: a REQUIRES borrower call (ambient session on the stack)
whose wrapped function raises a rollback-classified exception rolls back the
WHOLE borrowed session — the engine's exception handler does not consult
session ownership. This refutes the claim that a borrower call never rolls
back. -/
theorem C3_counterexample :
    (async_transaction_wrapper Propagation.REQUIRES false [] [] exBeh [1] sessA sessB).ops
      = [(1, SessOp.rollback)] :=
  rfl

/-- Exact trace of session primitives performed by a borrower-mode
`_a_do_fn_with_tx` call, by case on the wrapped function's behaviour. -/
theorem a_do_fn_borrower_ops (func : FuncBeh) (sess : Session) (ctx : List Nat)
    (ro af : Bool) (rb nrb : List ExcKind) :
    (a_do_fn_with_tx func sess ctx ro false af rb nrb).ops =
      match func.raises with
      | none =>
        if (func.call (entrySession ro sess)).is_active && af
            && (!(func.call (entrySession ro sess)).dirty.isEmpty
                || !(func.call (entrySession ro sess)).new.isEmpty
                || !(func.call (entrySession ro sess)).deleted.isEmpty) then
          [(sess.id, SessOp.flush)]
        else []
      | some e =>
        if check_is_commit e rb nrb then []
        else if (func.call (entrySession ro sess)).is_active then
          [(sess.id, SessOp.rollback)]
        else [] := by
  unfold a_do_fn_with_tx
  cases hr : func.raises with
  | none =>
    simp only [Bool.false_and, Bool.false_eq_true, if_false, Bool.not_false, Bool.true_and]
    split
    · simp [a_tx_finalize_ops]
    · simp [a_tx_finalize_ops]
  | some e =>
    dsimp only
    rw [reset_savepoint_objects_is_active]
    split
    · simp [a_tx_finalize_ops]
    · split
      · simp [a_tx_finalize_ops]
      · simp [a_tx_finalize_ops]

/-- C3 (amended): a REQUIRES borrower call never commits and never closes the
borrowed session, but it DOES roll back the whole session exactly when the
wrapped function raises an exception classified as a rollback trigger while the
session is active. -/
theorem C3_borrower_frame (read_only : Bool) (rb nrb : List ExcKind)
    (func : FuncBeh) (ctx : List Nat) (ambient fresh : Session) (hctx : ctx ≠ []) :
    (async_transaction_wrapper Propagation.REQUIRES read_only rb nrb func ctx ambient fresh).ops.contains
        (ambient.id, SessOp.commit) = false ∧
    (async_transaction_wrapper Propagation.REQUIRES read_only rb nrb func ctx ambient fresh).ops.contains
        (ambient.id, SessOp.close) = false ∧
    ((async_transaction_wrapper Propagation.REQUIRES read_only rb nrb func ctx ambient fresh).ops.contains
        (ambient.id, SessOp.rollback) = true ↔
      ∃ e, func.raises = some e ∧ check_is_commit e rb nrb = false ∧
        (func.call (entrySession read_only ambient)).is_active = true) := by
  have hne : ctx.isEmpty = false := by
    cases ctx with
    | nil => exact absurd rfl hctx
    | cons a t => rfl
  simp only [async_transaction_wrapper, hne, Bool.false_eq_true, if_false,
    a_do_fn_borrower_ops]
  cases hr : func.raises with
  | none =>
    dsimp only
    refine ⟨?_, ?_, ?_⟩
    · split <;> simp
    · split <;> simp
    · constructor
      · intro h
        split at h <;> simp at h
      · rintro ⟨e, he, -, -⟩
        cases he
  | some e =>
    dsimp only
    refine ⟨?_, ?_, ?_⟩
    · split
      · simp
      · split <;> simp
    · split
      · simp
      · split <;> simp
    · split
      · rename_i hc
        constructor
        · intro h
          simp at h
        · rintro ⟨e2, he2, hc2, -⟩
          cases he2
          rw [hc] at hc2
          simp at hc2
      · rename_i hc
        split
        · rename_i hact
          constructor
          · intro _
            exact ⟨e, rfl, by simpa using hc, hact⟩
          · intro _
            simp
        · rename_i hact
          constructor
          · intro h
            simp at h
          · rintro ⟨e2, he2, -, hact2⟩
            cases he2
            exact absurd hact2 hact

/-- C3 witness: the amended frame rule at a concrete borrower call whose
function raises with the default classification: no commit was issued on the
borrowed session. -/
theorem C3_witness :
    (async_transaction_wrapper Propagation.REQUIRES false [] [] exBeh [1] sessA sessB).ops.contains
      (1, SessOp.commit) = false :=
  (C3_borrower_frame false [] [] exBeh [1] sessA sessB (by decide)).1

/-- C4: a NESTED call with no ambient session on the transaction context raises
the configuration `ValueError` immediately: no savepoint is opened, no session
primitive at all is performed, and the result does not depend on the wrapped
function — it is never invoked. -/
theorem C4_nested_requires_ambient (read_only : Bool) (rb nrb : List ExcKind)
    (func : FuncBeh) (ambient fresh : Session) :
    async_transaction_wrapper Propagation.NESTED read_only rb nrb func [] ambient fresh
      = { outcome := Outcome.configError, sess := ambient, ctx := [], ops := [] } :=
  rfl

/-- C5: a REQUIRES call with no ambient session (owner path) uses the freshly
provided session for every primitive it performs, closes it on every exit path,
restores the session's original autoflush setting, returns the context stack to
its pre-call (empty) state, and commits exactly when the wrapped function
returns normally and the call is not read-only — assuming the wrapped function
leaves the session active, as a wrapped call that does not manage the session
itself always does. -/
theorem C5_requires_owner (read_only : Bool) (rb nrb : List ExcKind)
    (func : FuncBeh) (ambient fresh : Session)
    (hact : (func.call (entrySession read_only fresh)).is_active = true) :
    (∀ o ∈ (async_transaction_wrapper Propagation.REQUIRES read_only rb nrb func [] ambient fresh).ops,
        o.1 = fresh.id) ∧
    (async_transaction_wrapper Propagation.REQUIRES read_only rb nrb func [] ambient fresh).ops.contains
        (fresh.id, SessOp.close) = true ∧
    (async_transaction_wrapper Propagation.REQUIRES read_only rb nrb func [] ambient fresh).sess.autoflush
        = fresh.autoflush ∧
    (async_transaction_wrapper Propagation.REQUIRES read_only rb nrb func [] ambient fresh).ctx = [] ∧
    ((async_transaction_wrapper Propagation.REQUIRES read_only rb nrb func [] ambient fresh).ops.contains
        (fresh.id, SessOp.commit) = true
      ↔ (func.raises = none ∧ read_only = false)) := by
  simp only [async_transaction_wrapper, List.isEmpty_nil, if_true]
  unfold a_do_fn_with_tx
  cases hr : func.raises with
  | none =>
    dsimp only
    cases hro : read_only with
    | false =>
      rw [hro] at hact
      simp only [Bool.true_and, Bool.not_false, Bool.and_true, hact, eq_self_iff_true, if_true,
        a_tx_finalize_ops, a_tx_finalize_ctx, a_tx_finalize_autoflush]
      refine ⟨?_, by simp, by trivial, by trivial, by simp⟩
      intro o ho
      simp at ho
      rcases ho with h | h <;> simp [h]
    | true =>
      simp only [Bool.true_and, Bool.not_true, Bool.and_false, Bool.false_and,
        Bool.false_eq_true, if_false, a_tx_finalize_ops, a_tx_finalize_ctx,
        a_tx_finalize_autoflush]
      refine ⟨?_, by simp, by trivial, by trivial, by simp⟩
      intro o ho
      simp at ho
      simp [ho]
  | some e =>
    dsimp only
    rw [reset_savepoint_objects_is_active, hact]
    split
    · simp only [a_tx_finalize_ops, a_tx_finalize_ctx, a_tx_finalize_autoflush]
      refine ⟨?_, by simp, by trivial, by trivial, by simp⟩
      intro o ho
      simp at ho
      simp [ho]
    · rw [if_pos rfl]
      simp only [a_tx_finalize_ops, a_tx_finalize_ctx, a_tx_finalize_autoflush]
      refine ⟨?_, by simp, by trivial, by trivial, by simp⟩
      intro o ho
      simp at ho
      rcases ho with h | h <;> simp [h]

/-- C5 witness: a concrete owner call that adds an object and returns normally
commits on the fresh session. -/
theorem C5_witness :
    (async_transaction_wrapper Propagation.REQUIRES false [] [] addBeh [] sessA sessB).ops.contains
      (7, SessOp.commit) = true :=
  (C5_requires_owner false [] [] addBeh sessA sessB (by decide)).2.2.2.2.mpr ⟨rfl, rfl⟩

/-- Frame facts about the finalisation step: it preserves the session identity,
pops exactly the entry this call pushed, and adds at most the close event on the
same session. -/
theorem a_tx_finalize_frame (oa own : Bool) (s : Session) (sid : Nat) (ctx : List Nat)
    (ops : List (Nat × SessOp)) (out : Outcome)
    (hs : s.id = sid) (hops : ∀ o ∈ ops, o.1 = sid) :
    (a_tx_finalize oa own s (add_session_to_context sid ctx) ops out).sess.id = sid ∧
    (a_tx_finalize oa own s (add_session_to_context sid ctx) ops out).ctx = ctx ∧
    ∀ o ∈ (a_tx_finalize oa own s (add_session_to_context sid ctx) ops out).ops, o.1 = sid := by
  refine ⟨by simp [a_tx_finalize_sess_id, hs],
    by simp [a_tx_finalize_ctx, remove_session_from_context, add_session_to_context], ?_⟩
  intro o ho
  rw [a_tx_finalize_ops] at ho
  split at ho
  · simp at ho
    rcases ho with h | h
    · exact hops o h
    · rw [h]
      exact hs
  · exact hops o ho

/-- Frame facts about an owner-mode `_a_do_fn_with_tx` call: every session
primitive it performs is on the session it was handed, that session's identity
is unchanged, and the context stack is exactly restored. -/
theorem a_do_fn_owner_frame (func : FuncBeh) (sess : Session) (ctx : List Nat)
    (ro af : Bool) (rb nrb : List ExcKind) :
    (a_do_fn_with_tx func sess ctx ro true af rb nrb).sess.id = sess.id ∧
    (a_do_fn_with_tx func sess ctx ro true af rb nrb).ctx = ctx ∧
    ∀ o ∈ (a_do_fn_with_tx func sess ctx ro true af rb nrb).ops, o.1 = sess.id := by
  unfold a_do_fn_with_tx
  cases hr : func.raises with
  | none =>
    dsimp only
    split
    · exact a_tx_finalize_frame _ _ _ _ _ _ _ (by simp) (by simp)
    · split
      · exact a_tx_finalize_frame _ _ _ _ _ _ _ (by simp) (by simp)
      · exact a_tx_finalize_frame _ _ _ _ _ _ _ (by simp) (by simp)
  | some e =>
    dsimp only
    split
    · exact a_tx_finalize_frame _ _ _ _ _ _ _ (by simp) (by simp)
    · split
      · exact a_tx_finalize_frame _ _ _ _ _ _ _ (by simp) (by simp)
      · exact a_tx_finalize_frame _ _ _ _ _ _ _ (by simp) (by simp)

/-- C6: a REQUIRES_NEW call runs on the forced fresh session, which is never
the ambient session; every primitive it performs is on the forced session, so
the ambient session's transaction state is untouched; and the context stack
after the call is exactly the stack from before it, so the ambient entry is
restored and the forced session never stays visible on the stack. -/
theorem C6_requires_new_isolation (read_only : Bool) (rb nrb : List ExcKind)
    (func : FuncBeh) (ctx : List Nat) (ambient fresh : Session)
    (hforce : fresh.id ≠ ambient.id) :
    (async_transaction_wrapper Propagation.REQUIRES_NEW read_only rb nrb func ctx ambient fresh).sess.id
        = fresh.id ∧
    (async_transaction_wrapper Propagation.REQUIRES_NEW read_only rb nrb func ctx ambient fresh).sess.id
        ≠ ambient.id ∧
    (async_transaction_wrapper Propagation.REQUIRES_NEW read_only rb nrb func ctx ambient fresh).ctx
        = ctx ∧
    (∀ o ∈ (async_transaction_wrapper Propagation.REQUIRES_NEW read_only rb nrb func ctx ambient fresh).ops,
        o.1 = fresh.id) ∧
    (∀ op : SessOp,
        (ambient.id, op) ∉ (async_transaction_wrapper Propagation.REQUIRES_NEW read_only rb nrb func ctx ambient fresh).ops) ∧
    (fresh.id ∉ ctx →
        fresh.id ∉ (async_transaction_wrapper Propagation.REQUIRES_NEW read_only rb nrb func ctx ambient fresh).ctx) := by
  have hframe := a_do_fn_owner_frame func fresh ctx read_only false rb nrb
  obtain ⟨h1, h2, h3⟩ := hframe
  simp only [async_transaction_wrapper]
  refine ⟨h1, ?_, h2, h3, ?_, ?_⟩
  · rw [h1]
    exact hforce
  · intro op hmem
    have h := h3 _ hmem
    exact hforce h.symm
  · intro hnot
    rw [h2]
    exact hnot

/-- C6 witness: with an ambient session (id 1) on the stack and a forced fresh
session (id 7), the stack after a REQUIRES_NEW call is exactly the original
stack. -/
theorem C6_witness :
    (async_transaction_wrapper Propagation.REQUIRES_NEW false [] [] addBeh [1] sessA sessB).ctx
      = [1] :=
  (C6_requires_new_isolation false [] [] addBeh [1] sessA sessB (by decide)).2.2.1

/-- C7: NESTED finalization — a read-only nested call always rolls its
savepoint back, and a non-read-only nested call commits (releases) the
savepoint exactly when no savepoint rollback occurred. -/
theorem C7_nested_savepoint_finalize (read_only : Bool) (rb nrb : List ExcKind)
    (func : FuncBeh) (ctx : List Nat) (ambient fresh : Session) (hctx : ctx ≠ []) :
    (read_only = true →
      (async_transaction_wrapper Propagation.NESTED read_only rb nrb func ctx ambient fresh).ops.contains
        (ambient.id, SessOp.savepoint_rollback) = true) ∧
    (read_only = false →
      ((async_transaction_wrapper Propagation.NESTED read_only rb nrb func ctx ambient fresh).ops.contains
          (ambient.id, SessOp.savepoint_commit) = true
        ↔ (async_transaction_wrapper Propagation.NESTED read_only rb nrb func ctx ambient fresh).ops.contains
          (ambient.id, SessOp.savepoint_rollback) = false)) := by
  have hne : ctx.isEmpty = false := by
    cases ctx with
    | nil => exact absurd rfl hctx
    | cons a t => rfl
  simp only [async_transaction_wrapper, hne, Bool.false_eq_true, if_false]
  unfold a_nested_tx
  cases hr : func.raises with
  | none =>
    dsimp only
    cases hro : read_only with
    | true =>
      simp only [Bool.not_true, Bool.false_and, Bool.false_eq_true, if_false,
        eq_self_iff_true, if_true]
      exact ⟨fun _ => by simp, fun h => nomatch h⟩
    | false =>
      simp only [Bool.not_false, Bool.true_and, Bool.false_eq_true, if_false]
      split
      · exact ⟨fun h => (nomatch h), fun _ => ⟨fun _ => by simp, fun _ => by simp⟩⟩
      · exact ⟨fun h => (nomatch h), fun _ => ⟨fun _ => by simp, fun _ => by simp⟩⟩
  | some e =>
    dsimp only
    split
    · cases hro : read_only with
      | true => exact ⟨fun _ => by simp, fun h => nomatch h⟩
      | false => exact ⟨fun h => (nomatch h), fun _ => ⟨fun h => by simp at h, fun h => by simp at h⟩⟩
    · cases hro : read_only with
      | true =>
        simp only [eq_self_iff_true, if_true]
        exact ⟨fun _ => by simp, fun h => nomatch h⟩
      | false =>
        simp only [Bool.false_eq_true, if_false]
        exact ⟨fun h => (nomatch h), fun _ => ⟨fun _ => by simp, fun _ => by simp⟩⟩

/-- C7 witness: a concrete read-only NESTED call rolls back its savepoint. -/
theorem C7_witness :
    (async_transaction_wrapper Propagation.NESTED true [] [] addBeh [1] sessA sessB).ops.contains
      (1, SessOp.savepoint_rollback) = true :=
  (C7_nested_savepoint_finalize true [] [] addBeh [1] sessA sessB (by decide)).1 rfl

/-- C8: a NESTED call whose wrapped function raises a rollback-classified
exception re-raises it, rolls back only the savepoint (no session-level
rollback and no commit), and evicts from the identity map every object added
since the savepoint-entry snapshot: whatever remains tracked was already
tracked at entry. -/
theorem C8_nested_rollback_scope (read_only : Bool) (rb nrb : List ExcKind)
    (func : FuncBeh) (ctx : List Nat) (ambient fresh : Session) (e : ExcKind)
    (hctx : ctx ≠ []) (hraise : func.raises = some e)
    (hclass : check_is_commit e rb nrb = false) :
    (async_transaction_wrapper Propagation.NESTED read_only rb nrb func ctx ambient fresh).outcome
        = Outcome.raised e ∧
    (async_transaction_wrapper Propagation.NESTED read_only rb nrb func ctx ambient fresh).ops.contains
        (ambient.id, SessOp.savepoint_rollback) = true ∧
    (async_transaction_wrapper Propagation.NESTED read_only rb nrb func ctx ambient fresh).ops.contains
        (ambient.id, SessOp.rollback) = false ∧
    (async_transaction_wrapper Propagation.NESTED read_only rb nrb func ctx ambient fresh).ops.contains
        (ambient.id, SessOp.commit) = false ∧
    (∀ o ∈ (async_transaction_wrapper Propagation.NESTED read_only rb nrb func ctx ambient fresh).sess.identity,
        o ∈ ambient.identity) := by
  have hne : ctx.isEmpty = false := by
    cases ctx with
    | nil => exact absurd rfl hctx
    | cons a t => rfl
  simp only [async_transaction_wrapper, hne, Bool.false_eq_true, if_false]
  unfold a_nested_tx
  simp only [hraise, hclass, Bool.not_false, eq_self_iff_true, if_true]
  refine ⟨by trivial, by simp, by simp, by simp, ?_⟩
  intro o ho
  simp only [Session.savepointRollbackOp, reset_savepoint_objects,
    a_get_current_session_objects, List.mem_filter] at ho
  exact List.elem_iff.mp ho.2

/-- C8 witness: a concrete NESTED call raising a rollback-classified exception
performs no session-level rollback (only the savepoint one). -/
theorem C8_witness :
    (async_transaction_wrapper Propagation.NESTED false [] [] exBeh [1] sessA sessB).ops.contains
      (1, SessOp.rollback) = false :=
  (C8_nested_rollback_scope false [] [] exBeh [1] sessA sessB 5 (by decide) rfl rfl).2.2.1

/-- C9: `find_all_by_id` called with an empty id list returns the empty list
immediately and performs zero `session.execute` calls, in both the asynchronous
and the synchronous variant, whatever the primary-key condition builder, the
extra where-conditions and the executor are. -/
theorem C9_find_all_by_id_empty (build_pk : Nat → Nat) (whereConds : List Nat)
    (execute : QueryExec) :
    find_all_by_id_async build_pk [] whereConds execute = ([], 0) ∧
    find_all_by_id_sync build_pk [] whereConds execute = ([], 0) :=
  ⟨rfl, rfl⟩

/-- C10: `Pageable.validate` signals a `ValueError` exactly when the page or the
size is below 1; `offset` is `(page - 1) * size` and `limit` is `size`; and
`total_pages` is the ceiling of `total_items / size` when both are positive
(equivalently the integer `(total_items + size - 1) / size`) and `0` otherwise. -/
theorem C10_pageable (p : Pageable) :
    ((∃ m, p.validate = Except.error m) ↔ (p.page < 1 ∨ p.size < 1)) ∧
    (p.offset = (p.page - 1) * p.size ∧ p.limit = p.size) ∧
    (0 < p.total_items → 0 < p.size →
      p.total_pages = Int.ceil ((p.total_items : ℚ) / (p.size : ℚ)) ∧
      p.total_pages = (p.total_items + p.size - 1) / p.size) ∧
    (¬(0 < p.total_items ∧ 0 < p.size) → p.total_pages = 0) := by
  refine ⟨?_, ⟨rfl, rfl⟩, ?_, ?_⟩
  · unfold Pageable.validate
    constructor
    · rintro ⟨m, hm⟩
      by_contra hno
      push_neg at hno
      rw [if_neg (by omega), if_neg (by omega)] at hm
      cases hm
    · intro h
      rcases h with h | h
      · exact ⟨_, by rw [if_pos h]⟩
      · by_cases hp : p.page < 1
        · exact ⟨_, by rw [if_pos hp]⟩
        · exact ⟨_, by rw [if_neg hp, if_pos h]⟩
  · intro hti hsz
    unfold Pageable.total_pages
    rw [if_pos (by simp [hti, hsz, decide_eq_true_eq])]
    exact ⟨rfl, ceil_ratCast_div p.total_items p.size hsz⟩
  · intro hno
    unfold Pageable.total_pages
    rw [if_neg ?_]
    simp only [Bool.and_eq_true, decide_eq_true_eq, not_and]
    intro h1 h2
    exact hno ⟨h1, h2⟩

/-- C10 witness: a concrete pageable (page 2, size 10, 25 items) validates, has
offset 10 and 3 total pages. -/
theorem C10_witness :
    Pageable.total_pages { page := 2, size := 10, total_items := 25 } = 3 ∧
    Pageable.offset { page := 2, size := 10, total_items := 25 } = 10 ∧
    (∃ m, Pageable.validate { page := 0, size := 10, total_items := 25 } = Except.error m) := by
  have h := C10_pageable { page := 2, size := 10, total_items := 25 }
  have h0 := C10_pageable { page := 0, size := 10, total_items := 25 }
  refine ⟨?_, ?_, ?_⟩
  · have ht := (h.2.2.1 (by decide) (by decide)).2
    rw [ht]
    decide
  · rw [h.2.1.1]
    decide
  · exact h0.1.mpr (Or.inl (by decide))
